import Mathlib

/-!
Verification of the Diascore-App front-end excerpt.

Embedded source files:
* `src/unnamed/part_000` — the static `columns` / `statusOptions` catalog and the
  documented `AnswerSumRequest` record shape.
* `src/App-UI/Diascore-App/src/pages/UserPage.jsx` — the `UserPage` component:
  its `handleSignOut` handler and its conditional render.
-/

namespace Diascore

/-- An entry of the static catalog lists: a display `name` and a stable `uid`,
as in the object literals of `part_000`. -/
structure Labeled where
  name : String
  uid : String

/-- `export const columns = [...]` from `part_000`, lines 18–35. -/
def columns : List Labeled :=
  [ { name := "PATIENT NAME", uid := "patientName" },
    { name := "DIAGNOSIS DATE", uid := "diagnosisDate" },
    { name := "STATUS", uid := "status" },
    { name := "ACTIONS", uid := "actions" } ]

/-- `export const statusOptions = [...]` from `part_000`, lines 37–54. -/
def statusOptions : List Labeled :=
  [ { name := "COMPLETED", uid := "completed" },
    { name := "IN PROGRESS", uid := "in_progress" },
    { name := "PENDING", uid := "pending" },
    { name := "CANCELLED", uid := "cancelled" } ]

/-- The documented `AnswerSumRequest` record shape (the `@typedef` block of
`part_000`, lines 1–15), embedded as a Lean structure. -/
structure AnswerSumRequest where
  patientName : String
  patient_id : String
  gender : String
  age : Nat
  birth_date : String
  text_filler_name : String
  diagnosisDate : String
  pORt : String
  kORs : String
  answers : List Nat
  status : String
  avatar : String

/-- The declared field names of `AnswerSumRequest`, in the order of the
`@typedef` block of `part_000`. -/
def answerSumRequestFields : List String :=
  [ "patientName", "patient_id", "gender", "age", "birth_date",
    "text_filler_name", "diagnosisDate", "pORt", "kORs",
    "answers", "status", "avatar" ]

/-- The authenticated user exposed by the auth collaborator (`useAuth`):
an `email` and a display name that may be absent (`undefined` in JS is
modelled as `none`). -/
structure User where
  email : String
  displayName : Option String

/-- The ambient session state read by `UserPage` from `useAuth()`:
`user` (possibly absent) and the `loading` flag. -/
structure Session where
  user : Option User
  loading : Bool

/-- JavaScript `a || b` for a string-or-undefined left operand, as in
`user.displayName || 'N/A'` (UserPage.jsx line 47): the fallback fires on any
falsy value, i.e. on `undefined` (`none`) and on the empty string. -/
def jsOr (v : Option String) (fallback : String) : String :=
  match v with
  | none => fallback
  | some s => if s = "" then fallback else s

/-- The click handlers that appear in `UserPage.jsx`. -/
inductive Handler where
  | handleSignOut

mutual
/-- A rendered JSX node of `UserPage.jsx`: a text literal, a tagged element
with children, the imported `ProfileButton`, or the imported `GreenCoverButton`
with its `text`, `defaultColor` and `onClick` props. -/
inductive Node where
  | text (s : String)
  | elem (tag : String) (children : NodeList)
  | profileButton
  | greenCoverButton (label : String) (defaultColor : String) (onClick : Handler)

/-- A list of rendered nodes (children of an element). -/
inductive NodeList where
  | nil
  | cons (head : Node) (tail : NodeList)
end

/-- Build a `NodeList` from a Lean list of nodes. -/
def nodes : List Node → NodeList
  | [] => NodeList.nil
  | n :: t => NodeList.cons n (nodes t)

mutual
/-- All text literals of a rendered node, in document order (button labels
included). -/
def texts : Node → List String
  | Node.text s => [s]
  | Node.elem _ cs => textsList cs
  | Node.profileButton => []
  | Node.greenCoverButton label _ _ => [label]

/-- All text literals of a node list, in document order. -/
def textsList : NodeList → List String
  | NodeList.nil => []
  | NodeList.cons n rest => texts n ++ textsList rest
end

mutual
/-- Whether a rendered node contains the sign-out control: a
`GreenCoverButton` whose `onClick` is `handleSignOut`. -/
def hasSignOutControl : Node → Bool
  | Node.text _ => false
  | Node.elem _ cs => hasSignOutControlList cs
  | Node.profileButton => false
  | Node.greenCoverButton _ _ Handler.handleSignOut => true

/-- Whether any node of a list contains the sign-out control. -/
def hasSignOutControlList : NodeList → Bool
  | NodeList.nil => false
  | NodeList.cons n rest => hasSignOutControl n || hasSignOutControlList rest
end

/-- The render of `UserPage` (UserPage.jsx lines 21–55): if `loading`, only the
loading placeholder `div`; otherwise the header (brand title, profile button)
and the body — the user block (email, display name with `'N/A'` fallback) when
a user is present, else the fallback loading paragraph — followed by the
`Log Out` button wired to `handleSignOut`. -/
def render (s : Session) : Node :=
  if s.loading then
    Node.elem "div" (nodes [Node.text "Loading user data..."])
  else
    Node.elem "div" (nodes
      [ Node.elem "div" (nodes
          [ Node.elem "h3" (nodes [Node.text "Diascore"]),
            Node.elem "div" (nodes
              [ Node.elem "button" (nodes [Node.profileButton]) ]) ]),
        Node.elem "div" (nodes
          [ (match s.user with
             | some u =>
                 Node.elem "div" (nodes
                   [ Node.elem "p" (nodes
                       [Node.text "You are successfully logged in as:"]),
                     Node.elem "p" (nodes
                       [ Node.elem "strong" (nodes [Node.text "Email:"]),
                         Node.text u.email ]),
                     Node.elem "p" (nodes
                       [ Node.elem "strong" (nodes [Node.text "Display Name:"]),
                         Node.text (jsOr u.displayName "N/A") ]) ])
             | none => Node.elem "p" (nodes [Node.text "Loading user data..."])),
            Node.elem "div" (nodes
              [ Node.greenCoverButton "Log Out" "black" Handler.handleSignOut ]) ]) ])

/-- Observable events emitted while `handleSignOut` runs: the call to the
external `signOut(auth)`, its resolution or rejection, a `navigate` call, a
`console.error` diagnostic entry, and (never emitted by this handler) a
rethrow of the caught error. -/
inductive Event where
  | signOutCall
  | signOutResolved
  | signOutRejected (e : String)
  | navigate (path : String)
  | logError (msg : String) (e : String)
  | rethrow (e : String)

/-- Whether an event is a navigation call. -/
def isNavigate : Event → Bool
  | Event.navigate _ => true
  | _ => false

/-- Whether an event is a `console.error` diagnostic entry. -/
def isLogError : Event → Bool
  | Event.logError _ _ => true
  | _ => false

/-- Whether an event rethrows an error. -/
def isRethrow : Event → Bool
  | Event.rethrow _ => true
  | _ => false

/-- Scan a trace checking that every `navigate` event occurs strictly after a
`signOutResolved` event. -/
def navOnlyAfterResolvedFrom (resolved : Bool) : List Event → Bool
  | [] => true
  | Event.signOutResolved :: rest => navOnlyAfterResolvedFrom true rest
  | Event.navigate _ :: rest => resolved && navOnlyAfterResolvedFrom resolved rest
  | _ :: rest => navOnlyAfterResolvedFrom resolved rest

/-- Every `navigate` event of the trace occurs after the sign-out call
resolved. -/
def navOnlyAfterResolved (tr : List Event) : Bool :=
  navOnlyAfterResolvedFrom false tr

/-- `handleSignOut` (UserPage.jsx lines 12–19): `await signOut(auth)` inside
`try`; on resolution, `navigate('/home')`; on rejection, the catch block logs
`console.error('Error signing out:', error)` and the error is swallowed. The
ambient session is returned unchanged (the handler never mutates it), together
with the trace of emitted events; the outcome of the external call is passed
in as an `Except`. -/
def handleSignOut (s : Session) (signOutOutcome : Except String Unit) :
    Session × List Event :=
  match signOutOutcome with
  | Except.ok _ =>
      (s, [Event.signOutCall, Event.signOutResolved, Event.navigate "/home"])
  | Except.error e =>
      (s, [Event.signOutCall, Event.signOutRejected e,
           Event.logError "Error signing out:" e])

end Diascore

namespace Diascore

/-- C1: for every invocation of the sign-out action in which the external
sign-out call rejects, the handler makes zero navigation calls, emits exactly
one diagnostic log entry, does not rethrow the error, and leaves the panel's
session and rendered state unchanged. -/
theorem signOut_failure_logs_and_stays (s : Session) (e : String) :
    ((handleSignOut s (Except.error e)).2.countP isNavigate = 0) ∧
    ((handleSignOut s (Except.error e)).2.countP isLogError = 1) ∧
    ((handleSignOut s (Except.error e)).2.countP isRethrow = 0) ∧
    (handleSignOut s (Except.error e)).1 = s ∧
    render (handleSignOut s (Except.error e)).1 = render s :=
  ⟨rfl, rfl, rfl, rfl, rfl⟩

/-- C2: for every invocation of the sign-out action in which the external
sign-out call resolves, the handler makes exactly one navigation call, with
the literal path `/home`, and only after the sign-out call has resolved. -/
theorem signOut_success_navigates_home (s : Session) :
    ((handleSignOut s (Except.ok ())).2.countP isNavigate = 1) ∧
    ((handleSignOut s (Except.ok ())).2.filter isNavigate
        = [Event.navigate "/home"]) ∧
    (navOnlyAfterResolved (handleSignOut s (Except.ok ())).2 = true) :=
  ⟨rfl, rfl, rfl⟩

/-- C3: for every session state with `loading = true`, regardless of the user
value, the render output is exactly the loading placeholder, whose only text
is the placeholder literal. -/
theorem render_loading_only_placeholder (u : Option User) :
    render { user := u, loading := true }
        = Node.elem "div" (nodes [Node.text "Loading user data..."]) ∧
    texts (render { user := u, loading := true }) = ["Loading user data..."] :=
  ⟨rfl, rfl⟩

/-- C4: with `loading = false` and a present user, the render output includes
the display name when present (and then not `"N/A"`, provided neither the
name nor the email is itself the literal `"N/A"`), and includes the literal
`"N/A"` in its place when the display name is absent. -/
theorem render_displayName_fallback (em d : String) (hd : d ≠ "")
    (hdna : d ≠ "N/A") (he : em ≠ "N/A") :
    d ∈ texts (render { user := some ⟨em, some d⟩, loading := false }) ∧
    "N/A" ∉ texts (render { user := some ⟨em, some d⟩, loading := false }) ∧
    "N/A" ∈ texts (render { user := some ⟨em, none⟩, loading := false }) := by
  refine ⟨?_, ?_, ?_⟩ <;>
    simp [render, texts, textsList, nodes, jsOr, hd, Ne.symm hdna, Ne.symm he]

/-- Witness for C4 at the spec's concrete inputs `email = "a@b.com"`,
`displayName = "Ada"` and `displayName` absent. -/
theorem render_displayName_fallback_witness :
    "Ada" ∈ texts (render { user := some ⟨"a@b.com", some "Ada"⟩, loading := false }) ∧
    "N/A" ∉ texts (render { user := some ⟨"a@b.com", some "Ada"⟩, loading := false }) ∧
    "N/A" ∈ texts (render { user := some ⟨"a@b.com", none⟩, loading := false }) :=
  render_displayName_fallback "a@b.com" "Ada" (by decide) (by decide) (by decide)

/-- C5: `statusOptions` contains exactly four entries, its `uid` values are
pairwise distinct, and the set of `uid` values equals
`{completed, in_progress, pending, cancelled}`. -/
theorem statusOptions_four_distinct_uids :
    statusOptions.length = 4 ∧
    (statusOptions.map Labeled.uid).Nodup ∧
    (statusOptions.map Labeled.uid).Perm
      ["completed", "in_progress", "pending", "cancelled"] := by
  decide

/-- C6: `columns` is an ordered sequence of exactly four entries whose `uid`
values are `patientName`, `diagnosisDate`, `status`, `actions` in that order,
and every entry has a non-empty `name`. -/
theorem columns_four_nonempty_names :
    columns.length = 4 ∧
    columns.map Labeled.uid = ["patientName", "diagnosisDate", "status", "actions"] ∧
    ∀ c ∈ columns, c.name ≠ "" :=
  ⟨rfl, rfl, by decide⟩

/-- C7: with `loading = false` and no user present, the render output includes
the loading placeholder text in the body, and with `loading = false` the
sign-out control is rendered regardless of whether a user is present. -/
theorem render_no_user_placeholder_and_signOut_control (u : Option User) :
    "Loading user data..." ∈ texts (render { user := none, loading := false }) ∧
    hasSignOutControl (render { user := u, loading := false }) = true := by
  refine ⟨by decide, ?_⟩
  cases u <;> rfl

/-- C8: every entry of `columns` has a `uid` that is either the literal
`actions` sentinel or a declared field of the documented `AnswerSumRequest`
shape; `patientName`, `diagnosisDate` and `status` are declared fields and
`actions` is not. -/
theorem columns_uid_fields_or_actions :
    (∀ c ∈ columns, c.uid = "actions" ∨ c.uid ∈ answerSumRequestFields) ∧
    "patientName" ∈ answerSumRequestFields ∧
    "diagnosisDate" ∈ answerSumRequestFields ∧
    "status" ∈ answerSumRequestFields ∧
    "actions" ∉ answerSumRequestFields := by
  decide

/-- C9: with `loading = false` and a present user whose display name is the
empty string (present but empty), the fallback fires — the rendered display
name is `"N/A"`, the output includes `"N/A"`, and the empty string is not
among the rendered texts (for a non-empty email). -/
theorem render_empty_displayName_falls_back (em : String) (he : em ≠ "") :
    jsOr (some "") "N/A" = "N/A" ∧
    "N/A" ∈ texts (render { user := some ⟨em, some ""⟩, loading := false }) ∧
    "" ∉ texts (render { user := some ⟨em, some ""⟩, loading := false }) := by
  refine ⟨rfl, ?_, ?_⟩ <;>
    simp [render, texts, textsList, nodes, jsOr, Ne.symm he]

/-- Witness for C9 at the concrete email `"a@b.com"`. -/
theorem render_empty_displayName_falls_back_witness :
    jsOr (some "") "N/A" = "N/A" ∧
    "N/A" ∈ texts (render { user := some ⟨"a@b.com", some ""⟩, loading := false }) ∧
    "" ∉ texts (render { user := some ⟨"a@b.com", some ""⟩, loading := false }) :=
  render_empty_displayName_falls_back "a@b.com" (by decide)

/-- C10: the placeholder rendered when `loading = true` and the fallback
rendered when `loading = false` with no user present are the identical
literal `"Loading user data..."`: the loading view's texts are exactly that
literal, and the no-user view's texts are the brand title, that same literal,
and the sign-out label. -/
theorem loading_and_fallback_placeholder_identical (u : Option User) :
    texts (render { user := u, loading := true }) = ["Loading user data..."] ∧
    texts (render { user := none, loading := false })
        = ["Diascore", "Loading user data...", "Log Out"] :=
  ⟨rfl, rfl⟩

end Diascore
